import Mathlib

/-!
Shallow embedding of the miner health monitoring system
(`miner_health_monitor_simulation.py` and `miner_health_monitor_dashboard.py`):
the health classifier `analyze_health`, the controller transition policy
`handle_health_status`, and the end-of-cycle state reset performed by the
`run` loop, together with theorems checking the specification's claims.
-/

namespace MinerHealth

/-- `SystemState` enum from `miner_health_monitor_simulation.py`. -/
inductive SystemState where
  | SLEEP
  | WAKING
  | MONITORING
  | EXTENDED_MONITORING
  | EMERGENCY
  | TRANSMITTING
deriving DecidableEq

/-- `HealthStatus` enum from `miner_health_monitor_simulation.py`. -/
inductive HealthStatus where
  | NORMAL
  | WARNING
  | CRITICAL
  | EMERGENCY
deriving DecidableEq

/-- `VitalSigns` record: one measurement snapshot. Integer vitals are `Int`,
real-valued vitals are `Rat` (the Python floats here are only compared against
exact decimal constants, so rationals model the comparisons exactly). -/
structure VitalSigns where
  spo2 : Int
  heart_rate : Int
  bp_systolic : Int
  bp_diastolic : Int
  temperature : Rat
  accel_x : Rat
  accel_y : Rat
  accel_z : Rat
  fall_detected : Bool
  no_movement : Bool
deriving DecidableEq

/-! Threshold constants of `MinerHealthMonitor`. -/

def SPO2_MIN_NORMAL : Int := 92

def SPO2_MIN_CRITICAL : Int := 85

def HEART_RATE_MIN : Int := 45

def HEART_RATE_MAX : Int := 120

def HEART_RATE_CRITICAL_MIN : Int := 40

def HEART_RATE_CRITICAL_MAX : Int := 150

def TEMP_MIN_NORMAL : Rat := 35.5

def TEMP_MAX_NORMAL : Rat := 38.5

def TEMP_CRITICAL_MIN : Rat := 35.0

def TEMP_CRITICAL_MAX : Rat := 40.0

def NORMAL_INTERVAL : Int := 35

def EXTENDED_INTERVAL : Int := 10

def EMERGENCY_INTERVAL : Int := 5

/-- SpO2 contribution of `analyze_health` to the `(warning_flags,
critical_flags)` pair: the critical check comes first, the warning check is
its `elif`. -/
def spo2Flags (v : VitalSigns) : Nat × Nat :=
  if v.spo2 < SPO2_MIN_CRITICAL then (0, 1)
  else if v.spo2 < SPO2_MIN_NORMAL then (1, 0)
  else (0, 0)

/-- Heart-rate contribution of `analyze_health`. -/
def heartRateFlags (v : VitalSigns) : Nat × Nat :=
  if v.heart_rate < HEART_RATE_CRITICAL_MIN ∨ v.heart_rate > HEART_RATE_CRITICAL_MAX then (0, 1)
  else if v.heart_rate < HEART_RATE_MIN ∨ v.heart_rate > HEART_RATE_MAX then (1, 0)
  else (0, 0)

/-- Temperature contribution of `analyze_health`. -/
def temperatureFlags (v : VitalSigns) : Nat × Nat :=
  if v.temperature < TEMP_CRITICAL_MIN ∨ v.temperature > TEMP_CRITICAL_MAX then (0, 1)
  else if v.temperature < TEMP_MIN_NORMAL ∨ v.temperature > TEMP_MAX_NORMAL then (1, 0)
  else (0, 0)

/-- Fall contribution of `analyze_health`: a detected fall adds one critical
flag. -/
def fallFlags (v : VitalSigns) : Nat × Nat :=
  if v.fall_detected = true then (0, 1) else (0, 0)

/-- The `warning_flags` counter accumulated by `analyze_health`. -/
def warning_flags (v : VitalSigns) : Nat :=
  (spo2Flags v).1 + (heartRateFlags v).1 + (temperatureFlags v).1 + (fallFlags v).1

/-- The `critical_flags` counter accumulated by `analyze_health`. -/
def critical_flags (v : VitalSigns) : Nat :=
  (spo2Flags v).2 + (heartRateFlags v).2 + (temperatureFlags v).2 + (fallFlags v).2

/-- `MinerHealthMonitor.analyze_health`: flag accumulation followed by the
final decision chain. -/
def analyze_health (v : VitalSigns) : HealthStatus :=
  if critical_flags v > 0 ∨ v.fall_detected = true then HealthStatus.EMERGENCY
  else if warning_flags v ≥ 2 then HealthStatus.CRITICAL
  else if warning_flags v > 0 then HealthStatus.WARNING
  else HealthStatus.NORMAL

/-- Mutable controller state of `MinerHealthMonitor` (the fields read or
written by the transition policy and the `run` loop; `vitals` and
`measurement_count` belong to the simulated source, not the controller). -/
structure MonitorState where
  current_state : SystemState
  health_status : HealthStatus
  monitoring_interval : Int
  anomaly_count : Nat
  emergency_sent : Bool
deriving DecidableEq

/-- `MinerHealthMonitor.__init__`. -/
def initState : MonitorState :=
  { current_state := SystemState.SLEEP
    health_status := HealthStatus.NORMAL
    monitoring_interval := NORMAL_INTERVAL
    anomaly_count := 0
    emergency_sent := false }

/-- `MinerHealthMonitor.handle_health_status`: the transition policy.
Returns the updated controller state together with the list of transmissions
issued during the step, each transmission recorded as its `is_emergency`
flag. -/
def handle_health_status (st : MonitorState) (status : HealthStatus) :
    MonitorState × List Bool :=
  match status with
  | HealthStatus.NORMAL =>
      ({ st with monitoring_interval := NORMAL_INTERVAL,
                 anomaly_count := 0,
                 emergency_sent := false }, [])
  | HealthStatus.WARNING =>
      let st1 := { st with anomaly_count := st.anomaly_count + 1 }
      if st1.anomaly_count ≥ 2 then
        ({ st1 with monitoring_interval := EXTENDED_INTERVAL,
                    current_state := SystemState.EXTENDED_MONITORING }, [])
      else (st1, [])
  | HealthStatus.CRITICAL =>
      ({ st with monitoring_interval := EXTENDED_INTERVAL,
                 current_state := SystemState.EXTENDED_MONITORING }, [false])
  | HealthStatus.EMERGENCY =>
      let st1 := { st with monitoring_interval := EMERGENCY_INTERVAL,
                           current_state := SystemState.EMERGENCY }
      if st1.emergency_sent = true then (st1, [])
      else ({ st1 with emergency_sent := true }, [true])

/-- Tail of each iteration of `MinerHealthMonitor.run`: the state is reset to
`SLEEP` only when the current state is neither `EMERGENCY` nor
`EXTENDED_MONITORING`. -/
def end_of_cycle (st : MonitorState) : MonitorState :=
  if st.current_state = SystemState.EMERGENCY then st
  else if st.current_state = SystemState.EXTENDED_MONITORING then st
  else { st with current_state := SystemState.SLEEP }

/-- One controller step of `MinerHealthMonitor.run` after classification:
record the status (`self.health_status = self.analyze_health()`), apply
`handle_health_status`, then the end-of-cycle reset. -/
def stepStatus (st : MonitorState) (status : HealthStatus) :
    MonitorState × List Bool :=
  let p := handle_health_status { st with health_status := status } status
  (end_of_cycle p.1, p.2)

/-- One full cycle on an acquired sample: classify, then step. -/
def stepSample (st : MonitorState) (v : VitalSigns) : MonitorState × List Bool :=
  stepStatus st (analyze_health v)

/-- A sequence of controller steps driven by a list of per-cycle
classifications; returns the final state and the per-cycle transmission
lists. -/
def runStatuses (st : MonitorState) : List HealthStatus → MonitorState × List (List Bool)
  | [] => (st, [])
  | s :: rest =>
      let p := stepStatus st s
      let q := runStatuses p.1 rest
      (q.1, p.2 :: q.2)

/-- Modelled from the spec: the `VitalsSource` capability may return
`Unavailable` (`next() -> VitalsSample | Unavailable`); the repository's
simulated sources always produce a sample, so the acquisition-failure path of
`runCycle` is missing from the code and is taken from the spec: on
unavailability the cycle is skipped, nothing is transmitted, and the
controller state is left unchanged. -/
def runCycle (st : MonitorState) (sample : Option VitalSigns) :
    MonitorState × List Bool :=
  match sample with
  | none => (st, [])
  | some v => stepSample st v

/-- `MinerHealthMonitorGraphical.analyze_health` from
`miner_health_monitor_dashboard.py`: same thresholds (heart-rate and
temperature critical bounds hardcoded as 40/150 and 35.0/40.0 there), no
fall input. Returns `(warning_flags, critical_flags)` accumulated over the
three signals. -/
def graphicalFlags (heart_rate spo2 : Int) (temperature : Rat) : Nat × Nat :=
  let f1 : Nat × Nat :=
    if spo2 < SPO2_MIN_CRITICAL then (0, 1)
    else if spo2 < SPO2_MIN_NORMAL then (1, 0)
    else (0, 0)
  let f2 : Nat × Nat :=
    if heart_rate < 40 ∨ heart_rate > 150 then (0, 1)
    else if heart_rate < HEART_RATE_MIN ∨ heart_rate > HEART_RATE_MAX then (1, 0)
    else (0, 0)
  let f3 : Nat × Nat :=
    if temperature < 35.0 ∨ temperature > 40.0 then (0, 1)
    else if temperature < TEMP_MIN_NORMAL ∨ temperature > TEMP_MAX_NORMAL then (1, 0)
    else (0, 0)
  (f1.1 + f2.1 + f3.1, f1.2 + f2.2 + f3.2)

/-- Decision chain of `MinerHealthMonitorGraphical.analyze_health`. -/
def analyze_health_graphical (heart_rate spo2 : Int) (temperature : Rat) :
    HealthStatus :=
  let fl := graphicalFlags heart_rate spo2 temperature
  if fl.2 > 0 then HealthStatus.EMERGENCY
  else if fl.1 ≥ 2 then HealthStatus.CRITICAL
  else if fl.1 > 0 then HealthStatus.WARNING
  else HealthStatus.NORMAL

/-! Claim-side definitions, written from the wording of the claims (for
comparison against the embedded code). -/

/-- Critical-flag count as claim C1 words it: per-signal critical bands plus
one critical flag for a detected fall. -/
def claimCriticalFlags (v : VitalSigns) : Nat :=
  (if v.spo2 < 85 then 1 else 0) +
  (if v.heart_rate < 40 ∨ v.heart_rate > 150 then 1 else 0) +
  (if v.temperature < 35.0 ∨ v.temperature > 40.0 then 1 else 0) +
  (if v.fall_detected = true then 1 else 0)

/-- Warning-flag count as claim C1 words it: each signal in its warning band
(outside normal but inside the critical bounds) contributes one flag. -/
def claimWarningFlags (v : VitalSigns) : Nat :=
  (if 85 ≤ v.spo2 ∧ v.spo2 ≤ 91 then 1 else 0) +
  (if (v.heart_rate < 45 ∨ v.heart_rate > 120) ∧ 40 ≤ v.heart_rate ∧ v.heart_rate ≤ 150
   then 1 else 0) +
  (if (v.temperature < 35.5 ∨ v.temperature > 38.5) ∧ 35.0 ≤ v.temperature ∧ v.temperature ≤ 40.0
   then 1 else 0)

/-- The classifier as claim C1 describes it. -/
def claimClassify (v : VitalSigns) : HealthStatus :=
  if claimCriticalFlags v > 0 ∨ v.fall_detected = true then HealthStatus.EMERGENCY
  else if claimWarningFlags v ≥ 2 then HealthStatus.CRITICAL
  else if claimWarningFlags v ≥ 1 then HealthStatus.WARNING
  else HealthStatus.NORMAL

/-- Claim C6's streak: the number of consecutive immediately-preceding cycles
classified Warning or worse (any non-Normal status extends it, Normal resets
it). -/
def worseStreak (l : List HealthStatus) : Nat :=
  l.foldl (fun acc s =>
    match s with
    | HealthStatus.NORMAL => 0
    | _ => acc + 1) 0

/-- What `anomaly_count` actually tracks: the number of Warning-classified
cycles since the most recent Normal-classified cycle (Critical and Emergency
leave the counter unchanged). -/
def warningsSinceNormal (a : Nat) (l : List HealthStatus) : Nat :=
  l.foldl (fun acc s =>
    match s with
    | HealthStatus.NORMAL => 0
    | HealthStatus.WARNING => acc + 1
    | _ => acc) a

/-! Helper lemmas. -/

lemma spo2Flags_warning (v : VitalSigns) :
    (spo2Flags v).1 = if 85 ≤ v.spo2 ∧ v.spo2 ≤ 91 then 1 else 0 := by
  simp only [spo2Flags, SPO2_MIN_CRITICAL, SPO2_MIN_NORMAL]
  split_ifs <;> first | rfl | (exfalso; omega)

lemma spo2Flags_critical (v : VitalSigns) :
    (spo2Flags v).2 = if v.spo2 < 85 then 1 else 0 := by
  simp only [spo2Flags, SPO2_MIN_CRITICAL, SPO2_MIN_NORMAL]
  split_ifs <;> rfl

lemma heartRateFlags_warning (v : VitalSigns) :
    (heartRateFlags v).1 =
      if (v.heart_rate < 45 ∨ v.heart_rate > 120) ∧ 40 ≤ v.heart_rate ∧ v.heart_rate ≤ 150
      then 1 else 0 := by
  simp only [heartRateFlags, HEART_RATE_CRITICAL_MIN, HEART_RATE_CRITICAL_MAX,
    HEART_RATE_MIN, HEART_RATE_MAX]
  split_ifs <;> first | rfl | (exfalso; omega)

lemma heartRateFlags_critical (v : VitalSigns) :
    (heartRateFlags v).2 = if v.heart_rate < 40 ∨ v.heart_rate > 150 then 1 else 0 := by
  simp only [heartRateFlags, HEART_RATE_CRITICAL_MIN, HEART_RATE_CRITICAL_MAX,
    HEART_RATE_MIN, HEART_RATE_MAX]
  split_ifs <;> rfl

lemma temperatureFlags_warning (v : VitalSigns) :
    (temperatureFlags v).1 =
      if (v.temperature < 35.5 ∨ v.temperature > 38.5)
          ∧ 35.0 ≤ v.temperature ∧ v.temperature ≤ 40.0
      then 1 else 0 := by
  simp only [temperatureFlags, TEMP_CRITICAL_MIN, TEMP_CRITICAL_MAX,
    TEMP_MIN_NORMAL, TEMP_MAX_NORMAL]
  by_cases h1 : v.temperature < 35.0 ∨ v.temperature > 40.0
  · rw [if_pos h1, if_neg]
    rintro ⟨-, h3, h4⟩
    rcases h1 with h | h <;> linarith
  · rw [if_neg h1]
    push_neg at h1
    by_cases h2 : v.temperature < 35.5 ∨ v.temperature > 38.5
    · rw [if_pos h2, if_pos ⟨h2, h1.1, h1.2⟩]
    · rw [if_neg h2, if_neg]
      rintro ⟨h3, -⟩
      exact h2 h3

lemma temperatureFlags_critical (v : VitalSigns) :
    (temperatureFlags v).2 =
      if v.temperature < 35.0 ∨ v.temperature > 40.0 then 1 else 0 := by
  simp only [temperatureFlags, TEMP_CRITICAL_MIN, TEMP_CRITICAL_MAX,
    TEMP_MIN_NORMAL, TEMP_MAX_NORMAL]
  split_ifs <;> rfl

lemma warning_flags_eq (v : VitalSigns) : warning_flags v = claimWarningFlags v := by
  rw [warning_flags, claimWarningFlags, spo2Flags_warning,
    heartRateFlags_warning, temperatureFlags_warning]
  by_cases hf : v.fall_detected = true <;> simp [fallFlags, hf]

lemma critical_flags_eq (v : VitalSigns) : critical_flags v = claimCriticalFlags v := by
  rw [critical_flags, claimCriticalFlags, spo2Flags_critical,
    heartRateFlags_critical, temperatureFlags_critical]
  by_cases hf : v.fall_detected = true <;> simp [fallFlags, hf]

lemma end_of_cycle_health_status (st : MonitorState) :
    (end_of_cycle st).health_status = st.health_status := by
  unfold end_of_cycle
  split_ifs <;> rfl

lemma end_of_cycle_interval (st : MonitorState) :
    (end_of_cycle st).monitoring_interval = st.monitoring_interval := by
  unfold end_of_cycle
  split_ifs <;> rfl

lemma end_of_cycle_anomaly (st : MonitorState) :
    (end_of_cycle st).anomaly_count = st.anomaly_count := by
  unfold end_of_cycle
  split_ifs <;> rfl

lemma end_of_cycle_sent (st : MonitorState) :
    (end_of_cycle st).emergency_sent = st.emergency_sent := by
  unfold end_of_cycle
  split_ifs <;> rfl

lemma stepStatus_NORMAL (st : MonitorState) :
    stepStatus st HealthStatus.NORMAL =
      ({ st with health_status := HealthStatus.NORMAL,
                 monitoring_interval := NORMAL_INTERVAL,
                 anomaly_count := 0,
                 emergency_sent := false,
                 current_state :=
                   if st.current_state = SystemState.EMERGENCY
                       ∨ st.current_state = SystemState.EXTENDED_MONITORING
                   then st.current_state else SystemState.SLEEP }, []) := by
  simp only [stepStatus, handle_health_status, end_of_cycle]
  by_cases h1 : st.current_state = SystemState.EMERGENCY <;>
    by_cases h2 : st.current_state = SystemState.EXTENDED_MONITORING <;>
      simp [h1, h2]

lemma stepStatus_CRITICAL (st : MonitorState) :
    stepStatus st HealthStatus.CRITICAL =
      ({ st with health_status := HealthStatus.CRITICAL,
                 monitoring_interval := EXTENDED_INTERVAL,
                 current_state := SystemState.EXTENDED_MONITORING }, [false]) := by
  simp [stepStatus, handle_health_status, end_of_cycle]

lemma stepStatus_EMERGENCY (st : MonitorState) :
    stepStatus st HealthStatus.EMERGENCY =
      ({ st with health_status := HealthStatus.EMERGENCY,
                 monitoring_interval := EMERGENCY_INTERVAL,
                 current_state := SystemState.EMERGENCY,
                 emergency_sent := true },
       if st.emergency_sent = true then [] else [true]) := by
  by_cases h : st.emergency_sent = true <;>
    simp [stepStatus, handle_health_status, end_of_cycle, h]

lemma stepStatus_anomaly (st : MonitorState) (s : HealthStatus) :
    (stepStatus st s).1.anomaly_count =
      match s with
      | HealthStatus.NORMAL => 0
      | HealthStatus.WARNING => st.anomaly_count + 1
      | _ => st.anomaly_count := by
  cases s <;>
    simp only [stepStatus, handle_health_status, end_of_cycle_anomaly] <;>
      split_ifs <;> rfl

lemma stepStatus_sent (st : MonitorState) (s : HealthStatus) :
    (stepStatus st s).1.emergency_sent =
      match s with
      | HealthStatus.NORMAL => false
      | HealthStatus.EMERGENCY => true
      | _ => st.emergency_sent := by
  cases s <;>
    simp only [stepStatus, handle_health_status, end_of_cycle_sent] <;>
      split_ifs <;> simp_all

lemma stepStatus_interval (st : MonitorState) (s : HealthStatus) :
    (stepStatus st s).1.monitoring_interval =
      match s with
      | HealthStatus.NORMAL => NORMAL_INTERVAL
      | HealthStatus.WARNING =>
          if st.anomaly_count + 1 ≥ 2 then EXTENDED_INTERVAL else st.monitoring_interval
      | HealthStatus.CRITICAL => EXTENDED_INTERVAL
      | HealthStatus.EMERGENCY => EMERGENCY_INTERVAL := by
  cases s <;>
    simp only [stepStatus, handle_health_status, end_of_cycle_interval] <;>
      split_ifs <;> rfl

lemma stepStatus_health (st : MonitorState) (s : HealthStatus) :
    (stepStatus st s).1.health_status = s := by
  cases s <;>
    simp only [stepStatus, handle_health_status, end_of_cycle_health_status] <;>
      split_ifs <;> rfl

lemma emergency_latched (k : Nat) (st : MonitorState) (h : st.emergency_sent = true) :
    (runStatuses st (List.replicate k HealthStatus.EMERGENCY)).2 =
      List.replicate k [] := by
  induction k generalizing st with
  | zero => rfl
  | succ n ih =>
      rw [List.replicate_succ, List.replicate_succ]
      simp only [runStatuses, stepStatus_EMERGENCY, h, if_pos]
      exact congrArg (List.cons []) (ih _ rfl)

lemma critical_every_cycle (k : Nat) (st : MonitorState) :
    (runStatuses st (List.replicate k HealthStatus.CRITICAL)).2 =
      List.replicate k [false] := by
  induction k generalizing st with
  | zero => rfl
  | succ n ih =>
      rw [List.replicate_succ, List.replicate_succ]
      simp only [runStatuses, stepStatus_CRITICAL]
      exact congrArg (List.cons [false]) (ih _)

lemma anomaly_trace (l : List HealthStatus) (st : MonitorState) :
    (runStatuses st l).1.anomaly_count = warningsSinceNormal st.anomaly_count l := by
  induction l generalizing st with
  | nil => rfl
  | cons s rest ih =>
      simp only [runStatuses, warningsSinceNormal, List.foldl_cons]
      rw [ih, stepStatus_anomaly]
      cases s <;> rfl

/-- C1: for every sample, `analyze_health` computes exactly the per-signal
flag counts and the prioritised decision rule that the claim describes, with
the claimed bands: SpO2 critical < 85, warning 85–91; heart rate critical
outside 40–150, warning outside 45–120 but inside 40–150; temperature
critical outside 35.0–40.0, warning outside 35.5–38.5 but inside 35.0–40.0;
a detected fall adds one critical flag; Emergency if any critical flag or
fall, else Critical at two or more warning flags, else Warning at one, else
Normal. -/
theorem analyze_health_matches_claimed_rule (v : VitalSigns) :
    analyze_health v = claimClassify v := by
  unfold analyze_health claimClassify
  rw [critical_flags_eq, warning_flags_eq]
  split_ifs <;> first | rfl | omega

lemma stepStatus_WARNING (st : MonitorState) :
    stepStatus st HealthStatus.WARNING =
      (if st.anomaly_count + 1 ≥ 2
       then { st with health_status := HealthStatus.WARNING,
                      anomaly_count := st.anomaly_count + 1,
                      monitoring_interval := EXTENDED_INTERVAL,
                      current_state := SystemState.EXTENDED_MONITORING }
       else { st with health_status := HealthStatus.WARNING,
                      anomaly_count := st.anomaly_count + 1,
                      current_state :=
                        if st.current_state = SystemState.EMERGENCY
                            ∨ st.current_state = SystemState.EXTENDED_MONITORING
                        then st.current_state else SystemState.SLEEP }, []) := by
  by_cases h : st.anomaly_count + 1 ≥ 2
  · simp [stepStatus, handle_health_status, end_of_cycle, h]
  · by_cases h1 : st.current_state = SystemState.EMERGENCY <;>
      by_cases h2 : st.current_state = SystemState.EXTENDED_MONITORING <;>
        simp [stepStatus, handle_health_status, end_of_cycle, h, h1, h2]

lemma interval_invariant (l : List HealthStatus) (st : MonitorState)
    (h : st.monitoring_interval = NORMAL_INTERVAL
        ∨ st.monitoring_interval = EXTENDED_INTERVAL
        ∨ st.monitoring_interval = EMERGENCY_INTERVAL) :
    (runStatuses st l).1.monitoring_interval = NORMAL_INTERVAL
    ∨ (runStatuses st l).1.monitoring_interval = EXTENDED_INTERVAL
    ∨ (runStatuses st l).1.monitoring_interval = EMERGENCY_INTERVAL := by
  induction l generalizing st with
  | nil => exact h
  | cons s rest ih =>
      refine ih _ ?_
      simp only [stepStatus_interval]
      cases s
      · exact Or.inl rfl
      · dsimp only
        split_ifs
        · exact Or.inr (Or.inl rfl)
        · exact h
      · exact Or.inr (Or.inl rfl)
      · exact Or.inr (Or.inr rfl)

/-- C2: over any run of consecutive Emergency-classified cycles, the
controller transmits with `is_emergency = true` exactly on the first cycle
and exactly when the latch is clear there, and never on the later cycles of
the run; each Emergency cycle sets the interval to the Emergency value and
the state to `EMERGENCY`; and a step clears the `emergency_sent` latch only
on a Normal classification (Emergency sets it; Warning and Critical leave
it). -/
theorem emergency_transmits_once_per_episode (st : MonitorState) (k : Nat) :
    (runStatuses st (List.replicate (k + 1) HealthStatus.EMERGENCY)).2 =
        (if st.emergency_sent = true then [] else [true]) :: List.replicate k []
    ∧ (stepStatus st HealthStatus.EMERGENCY).1.monitoring_interval = EMERGENCY_INTERVAL
    ∧ (stepStatus st HealthStatus.EMERGENCY).1.current_state = SystemState.EMERGENCY
    ∧ ∀ s, (stepStatus st s).1.emergency_sent =
        (match s with
         | HealthStatus.NORMAL => false
         | HealthStatus.EMERGENCY => true
         | _ => st.emergency_sent) := by
  refine ⟨?_, ?_, ?_, fun s => stepStatus_sent st s⟩
  · rw [List.replicate_succ]
    simp only [runStatuses, stepStatus_EMERGENCY]
    exact congrArg _ (emergency_latched k _ rfl)
  · simp [stepStatus_EMERGENCY]
  · simp [stepStatus_EMERGENCY]

/-- C3: a Critical-classified cycle unconditionally sets the interval to the
Extended value and the state to `EXTENDED_MONITORING` and transmits with
`is_emergency = false`, whatever the latch holds; back-to-back Critical
cycles each transmit. -/
theorem critical_transmits_every_cycle (st : MonitorState) (k : Nat) :
    stepStatus st HealthStatus.CRITICAL =
        ({ st with health_status := HealthStatus.CRITICAL,
                   monitoring_interval := EXTENDED_INTERVAL,
                   current_state := SystemState.EXTENDED_MONITORING }, [false])
    ∧ (runStatuses st (List.replicate k HealthStatus.CRITICAL)).2 =
        List.replicate k [false] :=
  ⟨stepStatus_CRITICAL st, critical_every_cycle k st⟩

/-- C4: a Warning-classified cycle transmits nothing and increments
`anomaly_count`; when the incremented count reaches 2 the policy sets the
Extended interval and `EXTENDED_MONITORING`, otherwise it leaves interval and
state untouched; two consecutive Warning cycles from a zero count escalate
interval and state, while a single Warning cycle leaves the interval
unchanged. -/
theorem warning_increments_and_escalates_at_two (st : MonitorState) :
    (handle_health_status st HealthStatus.WARNING).2 = []
    ∧ (handle_health_status st HealthStatus.WARNING).1 =
        (if st.anomaly_count + 1 ≥ 2
         then { st with anomaly_count := st.anomaly_count + 1,
                        monitoring_interval := EXTENDED_INTERVAL,
                        current_state := SystemState.EXTENDED_MONITORING }
         else { st with anomaly_count := st.anomaly_count + 1 })
    ∧ (runStatuses { st with anomaly_count := 0 }
        [HealthStatus.WARNING, HealthStatus.WARNING]).1.monitoring_interval
          = EXTENDED_INTERVAL
    ∧ (runStatuses { st with anomaly_count := 0 }
        [HealthStatus.WARNING, HealthStatus.WARNING]).1.current_state
          = SystemState.EXTENDED_MONITORING
    ∧ (runStatuses { st with anomaly_count := 0 }
        [HealthStatus.WARNING]).1.monitoring_interval = st.monitoring_interval := by
  refine ⟨?_, ?_, ?_, ?_, ?_⟩
  · simp only [handle_health_status]
    split_ifs <;> rfl
  · simp only [handle_health_status]
    split_ifs <;> rfl
  · simp [runStatuses, stepStatus_WARNING]
  · simp [runStatuses, stepStatus_WARNING]
  · simp [runStatuses, stepStatus_WARNING]

/-- C5 counterexample: after the reachable trace Warning, Warning, Normal
from the initial state, the Normal cycle leaves `current_state` at
`EXTENDED_MONITORING`; it is not reset to `SLEEP` as the claim states. -/
theorem normal_cycle_state_counterexample :
    (runStatuses initState
      [HealthStatus.WARNING, HealthStatus.WARNING, HealthStatus.NORMAL]).1.current_state
        = SystemState.EXTENDED_MONITORING
    ∧ (runStatuses initState
      [HealthStatus.WARNING, HealthStatus.WARNING, HealthStatus.NORMAL]).1.current_state
        ≠ SystemState.SLEEP := by
  constructor <;> decide

/-- C5 amended: a Normal-classified cycle transmits nothing, resets
`anomaly_count` to 0 and `emergency_sent` to false, and sets the interval to
the Normal value; `current_state` is reset to `SLEEP` only when the
controller is in neither `EMERGENCY` nor `EXTENDED_MONITORING` — from those
two states a Normal cycle leaves `current_state` unchanged. -/
theorem normal_resets_counters_not_always_state (st : MonitorState) :
    stepStatus st HealthStatus.NORMAL =
      ({ st with health_status := HealthStatus.NORMAL,
                 monitoring_interval := NORMAL_INTERVAL,
                 anomaly_count := 0,
                 emergency_sent := false,
                 current_state :=
                   if st.current_state = SystemState.EMERGENCY
                       ∨ st.current_state = SystemState.EXTENDED_MONITORING
                   then st.current_state else SystemState.SLEEP }, []) :=
  stepStatus_NORMAL st

/-- C6 counterexample: after a single Critical-classified cycle from the
initial state, the consecutive Warning-or-worse streak is 1 but
`anomaly_count` is 0 — a Critical cycle does not extend the counter. -/
theorem anomaly_streak_counterexample :
    (runStatuses initState [HealthStatus.CRITICAL]).1.anomaly_count = 0
    ∧ worseStreak [HealthStatus.CRITICAL] = 1
    ∧ (runStatuses initState [HealthStatus.CRITICAL]).1.anomaly_count
        ≠ worseStreak [HealthStatus.CRITICAL] := by
  refine ⟨?_, ?_, ?_⟩ <;> decide

/-- C6 amended: at every point in a run, `anomaly_count` equals the number of
Warning-classified cycles since the most recent Normal-classified cycle:
Warning increments it, Normal resets it to 0, and Critical and Emergency
cycles leave it unchanged. -/
theorem anomaly_counts_warnings_since_normal (st : MonitorState)
    (l : List HealthStatus) :
    (runStatuses st l).1.anomaly_count = warningsSinceNormal st.anomaly_count l :=
  anomaly_trace l st

/-- C7: when acquisition reports unavailability, the cycle is skipped:
nothing is transmitted and the whole controller state — in particular the
monitoring interval used for the retry — is unchanged. -/
theorem acquisition_unavailable_skips_cycle (st : MonitorState) :
    runCycle st none = (st, [])
    ∧ (runCycle st none).1.monitoring_interval = st.monitoring_interval :=
  ⟨rfl, rfl⟩

/-- C8: the monitoring interval is the Normal value (35) at initialization,
every policy step either keeps it or assigns one of the three fixed values
35, 10, 5, and along every classification sequence from the initial state it
stays in {35, 10, 5}. -/
theorem interval_always_three_values :
    initState.monitoring_interval = NORMAL_INTERVAL
    ∧ (∀ (st : MonitorState) (s : HealthStatus),
        (stepStatus st s).1.monitoring_interval = st.monitoring_interval
        ∨ (stepStatus st s).1.monitoring_interval = NORMAL_INTERVAL
        ∨ (stepStatus st s).1.monitoring_interval = EXTENDED_INTERVAL
        ∨ (stepStatus st s).1.monitoring_interval = EMERGENCY_INTERVAL)
    ∧ ∀ l : List HealthStatus,
        (runStatuses initState l).1.monitoring_interval = NORMAL_INTERVAL
        ∨ (runStatuses initState l).1.monitoring_interval = EXTENDED_INTERVAL
        ∨ (runStatuses initState l).1.monitoring_interval = EMERGENCY_INTERVAL := by
  refine ⟨rfl, ?_, fun l => interval_invariant l initState (Or.inl rfl)⟩
  intro st s
  simp only [stepStatus_interval]
  cases s
  · exact Or.inr (Or.inl rfl)
  · dsimp only
    split_ifs
    · exact Or.inr (Or.inr (Or.inl rfl))
    · exact Or.inl rfl
  · exact Or.inr (Or.inr (Or.inl rfl))
  · exact Or.inr (Or.inr (Or.inr rfl))

/-- C9: the classifier is a pure function of the sample: classifying the same
sample twice gives the same status, and the status a cycle records is the
same whatever the controller state, equal to `analyze_health` of the sample
alone. -/
theorem classifier_pure_and_state_independent (st1 st2 : MonitorState)
    (v : VitalSigns) :
    analyze_health v = analyze_health v
    ∧ (stepSample st1 v).1.health_status = (stepSample st2 v).1.health_status
    ∧ (stepSample st1 v).1.health_status = analyze_health v := by
  refine ⟨rfl, ?_, ?_⟩ <;> simp [stepSample, stepStatus_health]

/-- A concrete fall-free sample (the spec's Normal example). -/
def fallFreeSample : VitalSigns :=
  { spo2 := 99, heart_rate := 78, bp_systolic := 120, bp_diastolic := 80,
    temperature := 36.8, accel_x := 0, accel_y := 0, accel_z := 1,
    fall_detected := false, no_movement := false }

/-- C10: on fall-free samples the simulation classifier and the dashboard
classifier agree: with the same SpO2, heart rate and temperature,
`analyze_health` and `analyze_health_graphical` return the same status. -/
theorem classifiers_agree (v : VitalSigns) (h : v.fall_detected = false) :
    analyze_health v = analyze_health_graphical v.heart_rate v.spo2 v.temperature := by
  simp only [analyze_health, analyze_health_graphical, graphicalFlags,
    warning_flags, critical_flags, spo2Flags, heartRateFlags, temperatureFlags,
    fallFlags, h, SPO2_MIN_CRITICAL, SPO2_MIN_NORMAL, HEART_RATE_MIN,
    HEART_RATE_MAX, HEART_RATE_CRITICAL_MIN, HEART_RATE_CRITICAL_MAX,
    TEMP_MIN_NORMAL, TEMP_MAX_NORMAL, TEMP_CRITICAL_MIN, TEMP_CRITICAL_MAX]
  simp

/-- Witness for C10 at a concrete fall-free sample. -/
theorem classifiers_agree_witness :
    fallFreeSample.fall_detected = false
    ∧ analyze_health fallFreeSample =
        analyze_health_graphical fallFreeSample.heart_rate fallFreeSample.spo2
          fallFreeSample.temperature :=
  ⟨rfl, classifiers_agree fallFreeSample rfl⟩

end MinerHealth
